import Mathlib

/-!
Shallow embedding of the DebateBot FastAPI backend (src/backend/main.py, with
src/main.py an older copy of the debate half).  Python strings are modelled as
Lean `String` / `List Char`; Python floats that carry rubric scores are
modelled as exact rationals `ℚ`; the external LLM client `llm.invoke` is a
parameter `String → Except E String` (`.error` models a raised exception);
`json.loads` plus the subsequent `float(...)` coercions are abstracted into a
parameter that either fails or yields the parsed fields.
-/

namespace DebateBot

/-- Python `str.isspace` on the ASCII whitespace characters (model of the
characters stripped by `str.strip()` and split on by `str.split()`). -/
def isSpace (c : Char) : Bool :=
  c == ' ' || c == '\t' || c == '\n' || c == '\r' || c == '\x0b' || c == '\x0c'

/-- Helper for the splitting functions: prepend a character to the first
segment of a split result. -/
def consHead (c : Char) : List (List Char) → List (List Char)
  | [] => [[c]]
  | h :: t => (c :: h) :: t

/-- Python `str.split(sep)` for a one-character separator: keeps empty
segments, always returns at least one segment. -/
def splitPred (p : Char → Bool) : List Char → List (List Char)
  | [] => [[]]
  | c :: rest => if p c then [] :: splitPred p rest else consHead c (splitPred p rest)

/-- Python `str.split("\n\n")`: split on non-overlapping occurrences of two
consecutive newline characters, scanning left to right. -/
def splitNN : List Char → List (List Char)
  | [] => [[]]
  | '\n' :: '\n' :: rest => [] :: splitNN rest
  | c :: rest => consHead c (splitNN rest)

/-- Python `str.strip()`: drop whitespace from both ends. -/
def stripL (l : List Char) : List Char :=
  ((l.dropWhile isSpace).reverse.dropWhile isSpace).reverse

/-- Python `str.strip()` on `String`. -/
def pyStrip (s : String) : String := String.mk (stripL s.data)

/-- Python `str.split()` with no separator: split on whitespace runs,
dropping empty segments. -/
def pyWords (l : List Char) : List (List Char) :=
  (splitPred isSpace l).filter (fun w => !w.isEmpty)

/-- Python `' '.join(words)`. -/
def joinWords (ws : List (List Char)) : List Char :=
  (List.intercalate [' '] ws)

/-- The three-character ellipsis `'...'` appended by `get_summary`. -/
def dots3 : List Char := ['.', '.', '.']

/-- Embedding of `get_summary(content, max_words)` from src/backend/main.py
lines 78–87 (identical in src/main.py lines 76–85): split on `'.'`, take the
first sentence stripped; if it has more than `max_words` words, join the
first `max_words` words and append `'...'`, else append `'.'`; if the split
were empty (Python falsy list), return the first 150 characters plus `'...'`. -/
def get_summary (content : String) (max_words : Nat) : String :=
  match splitPred (fun c => c == '.') content.data with
  | first :: _ =>
    let first_sentence := stripL first
    let words := pyWords first_sentence
    if words.length > max_words then
      String.mk (joinWords (words.take max_words) ++ dots3)
    else
      String.mk (first_sentence ++ ['.'])
  | [] => String.mk (content.data.take 150 ++ dots3)

/-- One `{summary, full}` pair of the debate response. -/
structure StageItem where
  summary : String
  full : String
  deriving DecidableEq

/-- The `{opening, rebuttal, closing}` map built for each side. -/
structure StageSet where
  opening : StageItem
  rebuttal : StageItem
  closing : StageItem
  deriving DecidableEq

/-- Response body of POST /api/debate. -/
structure DebateResponse where
  topic : String
  proposition : StageSet
  opposition : StageSet
  deriving DecidableEq

/-- The prompt template dispatch of `generate_argument(topic, side, stage,
history)` (src/backend/main.py lines 39–74): `opening` and `rebuttal` are
matched explicitly, anything else takes the closing template. -/
def argPrompt (topic side stage history : String) : String :=
  if stage == "opening" then
    "You are a world-class debater participating in a formal debate.\nMotion: "
      ++ topic ++ "\nYour Stance: " ++ side
      ++ "\n\nWrite a compelling, concise opening statement (max 150 words).\nPresent 2-3 clear, distinct arguments. Be persuasive and articulate."
  else if stage == "rebuttal" then
    "You are a world-class debater.\nMotion: " ++ topic ++ "\nYour Stance: " ++ side
      ++ "\n\nOPPONENT\x27S ARGUMENTS:\n" ++ history
      ++ "\n\nWrite a sharp rebuttal (max 150 words) countering the opponent\x27s points. \nAddress their specific arguments and provide counter-evidence."
  else
    "You are a world-class debater giving your closing argument.\nMotion: "
      ++ topic ++ "\nYour Stance: " ++ side
      ++ "\n\nDEBATE SO FAR:\n" ++ history
      ++ "\n\nWrite a powerful closing statement (max 150 words).\nSummarize your strongest points and make a final appeal."

/-- One `llm.invoke(prompt)` call, instrumented with a log of the prompts
issued so far so that the number and order of LLM calls is observable.
`.error` models an exception raised by the LLM client, which no code in
`generate_argument` or `run_debate` catches. -/
def invokeLLM {E : Type} (llm : String → Except E String) (prompt : String) :
    StateT (List String) (Except E) String :=
  fun log => (llm prompt).map (fun content => (content, log ++ [prompt]))

/-- Embedding of `generate_argument`: build the stage prompt and invoke the
LLM once (the `str(content)` coercion is the identity on strings). -/
def generate_argument {E : Type} (llm : String → Except E String)
    (topic side stage history : String) : StateT (List String) (Except E) String :=
  invokeLLM llm (argPrompt topic side stage history)

/-- Embedding of the POST /api/debate handler `run_debate`
(src/backend/main.py lines 93–146): six sequential `generate_argument`
calls — two openings, two rebuttals each fed the opposite opening as
history, two closings each fed the side\x27s own opening plus the
opponent\x27s rebuttal — then the response with `get_summary` applied to
each full text. -/
def run_debate {E : Type} (llm : String → Except E String) (topic : String) :
    StateT (List String) (Except E) DebateResponse := do
  let prop_opening ← generate_argument llm topic "Proposition" "opening" ""
  let opp_opening ← generate_argument llm topic "Opposition" "opening" ""
  let prop_rebuttal ← generate_argument llm topic "Proposition" "rebuttal" opp_opening
  let opp_rebuttal ← generate_argument llm topic "Opposition" "rebuttal" prop_opening
  let prop_history := "Your Opening: " ++ prop_opening ++ "\nOpponent\x27s Rebuttal: " ++ opp_rebuttal
  let opp_history := "Your Opening: " ++ opp_opening ++ "\nOpponent\x27s Rebuttal: " ++ prop_rebuttal
  let prop_closing ← generate_argument llm topic "Proposition" "closing" prop_history
  let opp_closing ← generate_argument llm topic "Opposition" "closing" opp_history
  return { topic := topic
           proposition :=
             { opening := ⟨get_summary prop_opening 25, prop_opening⟩
               rebuttal := ⟨get_summary prop_rebuttal 25, prop_rebuttal⟩
               closing := ⟨get_summary prop_closing 25, prop_closing⟩ }
           opposition :=
             { opening := ⟨get_summary opp_opening 25, opp_opening⟩
               rebuttal := ⟨get_summary opp_rebuttal 25, opp_rebuttal⟩
               closing := ⟨get_summary opp_closing 25, opp_closing⟩ } }

/-- One entry of `argument_history`: a dict with a `type` tag (`"user"` or
anything else) and a `text` field (`item.get("text", "")` modelled as the
field itself). -/
structure HistoryItem where
  type : String
  text : String
  deriving DecidableEq

/-- Request body of POST /api/live-counter. -/
structure LiveDebateRequest where
  topic : String
  user_argument : String
  round : String
  argument_history : List HistoryItem
  deriving DecidableEq

/-- One structured point of the live-counter response. -/
structure Point where
  id : Nat
  text : String
  deriving DecidableEq

/-- Response body of POST /api/live-counter. -/
structure LiveDebateResponse where
  counter_argument : String
  points : List Point
  deriving DecidableEq

/-- The `history_context` transcript built in `generate_counter`
(src/backend/main.py lines 173–181): empty when the history list is empty,
else a header followed by one labelled line per item. -/
def history_context (history : List HistoryItem) : String :=
  if history.isEmpty then ""
  else
    history.foldl
      (fun acc item =>
        if item.type == "user" then acc ++ "USER\x27S ARGUMENT: " ++ item.text ++ "\n"
        else acc ++ "AI COUNTER: " ++ item.text ++ "\n")
      "\n\nPREVIOUS EXCHANGES:\n"

/-- The round-dispatched prompt of `generate_counter` (src/backend/main.py
lines 183–227): `opening` and `rebuttal` are matched explicitly and every
other round value takes the closing template. -/
def counterPrompt (topic user_argument round_type : String) (ctx : String) : String :=
  if round_type == "opening" then
    "You are an expert AI debater analyzing and countering arguments.\nMotion: "
      ++ topic ++ "\nYour Role: Opposition (countering the user\x27s position)\n\nUSER\x27S OPENING ARGUMENT:\n"
      ++ user_argument ++ "\n" ++ ctx
      ++ "\n\nGenerate a compelling counter-argument (max 200 words) that:\n1. Acknowledges the user\x27s point briefly\n2. Presents clear counter-evidence or reasoning  \n3. Explains why the opposing view is stronger\n\nBe analytical, respectful, and persuasive. Write in a formal debate style."
  else if round_type == "rebuttal" then
    "You are an expert AI debater in a rebuttal round.\nMotion: "
      ++ topic ++ "\nYour Role: Opposition (countering the user\x27s position)\n\nUSER\x27S REBUTTAL ARGUMENT:\n"
      ++ user_argument ++ "\n" ++ ctx
      ++ "\n\nGenerate a sharp rebuttal (max 200 words) that:\n1. Directly addresses the user\x27s specific points\n2. Identifies weaknesses in their reasoning\n3. Reinforces your counter-position with evidence\n\nBe analytical and point out logical gaps. Maintain a respectful but firm debate tone."
  else
    "You are an expert AI debater giving a closing counter-argument.\nMotion: "
      ++ topic ++ "\nYour Role: Opposition (summarizing why the user\x27s position is weaker)\n\nUSER\x27S CLOSING ARGUMENT:\n"
      ++ user_argument ++ "\n" ++ ctx
      ++ "\n\nGenerate a powerful closing counter-argument (max 200 words) that:\n1. Summarizes the key weaknesses in the user\x27s overall position\n2. Highlights the strongest points from your counter-arguments\n3. Makes a compelling final case for the opposing view\n\nBe persuasive and conclusive."

/-- The point-splitting loop of `generate_counter` (src/backend/main.py
lines 234–245): split the stripped text on blank lines, keep the non-blank
paragraphs stripped with id = enumerate index + 1, and if nothing survives
make the whole stripped text a single point with id 1. -/
def counterPoints (counter_text : String) : List Point :=
  let paragraphs := splitNN (stripL counter_text.data)
  let points := paragraphs.enum.filterMap
    (fun ip => if (stripL ip.2).isEmpty then none
               else some ⟨ip.1 + 1, String.mk (stripL ip.2)⟩)
  if points.isEmpty then [⟨1, pyStrip counter_text⟩] else points

/-- Embedding of the POST /api/live-counter handler `generate_counter`
(src/backend/main.py lines 159–250): build the history context, build the
round-dispatched prompt, invoke the LLM once (uncaught on error), and split
the output into points. -/
def generate_counter {E : Type} (llm : String → Except E String)
    (request : LiveDebateRequest) : Except E LiveDebateResponse := do
  let ctx := history_context request.argument_history
  let prompt := counterPrompt request.topic request.user_argument request.round ctx
  let counter_text ← llm prompt
  return ⟨counter_text, counterPoints counter_text⟩

/-- The clamp `max(0, min(1, x))` applied to every rubric metric. -/
def clampQ (q : ℚ) : ℚ := max 0 (min 1 q)

/-- Model of `re.search(r'\{[\s\S]*\}', s)`: the greedy pattern matches
exactly when some `\x7b` occurs strictly before some `\x7d`, and the match
then runs from the first `\x7b` to the last `\x7d`. -/
def jsonMatchL (l : List Char) : Option (List Char) :=
  match l.indexOf? '{', l.reverse.indexOf? '}' with
  | some i, some rj =>
    let j := l.length - 1 - rj
    if i < j then some ((l.drop i).take (j - i + 1)) else none
  | _, _ => none

/-- `re.search(r'\{[\s\S]*\}', s)` on `String`. -/
def jsonMatch (s : String) : Option String :=
  (jsonMatchL s.data).map (fun l => String.mk l)

/-- Python `len(argument.split('.'))`, the `sentence_count` default. -/
def sentCount (argument : String) : Nat :=
  (splitPred (fun c => c == '.') argument.data).length

/-- The fields of the JSON object a successful `json.loads` of the matched
substring provides to `score_argument`, after the `float(...)` coercions:
each field is `none` when the key is missing (so `dict.get` falls back to
its default).  A parse in which `json.loads` itself or any later coercion
raises is modelled as the parse parameter returning `.error`. -/
structure ParsedScores where
  coherence : Option ℚ
  relevance : Option ℚ
  evidence_strength : Option ℚ
  fallacy_penalty : Option ℚ
  sentence_count : Option Nat
  evidence_count : Option Nat
  fallacies : Option (List String)
  deriving DecidableEq

/-- The `details` object of the scoring response. -/
structure ScoreDetails where
  sentenceCount : Nat
  evidenceCount : Nat
  fallaciesDetected : List String
  deriving DecidableEq

/-- Response body of POST /api/score-argument. -/
structure ScoreResponse where
  coherence : ℚ
  relevance : ℚ
  evidenceStrength : ℚ
  fallacyPenalty : ℚ
  argumentStrength : ℚ
  details : ScoreDetails
  deriving DecidableEq

/-- The rubric prompt built by `score_argument` (src/backend/main.py lines
268–296). -/
def scoring_prompt (argument topic : String) : String :=
  "You are an expert debate judge analyzing an argument. Evaluate the following argument on the given topic.\n\nTOPIC: "
    ++ topic ++ "\n\nARGUMENT:\n" ++ argument
    ++ "\n\nAnalyze this argument and provide scores (as decimal numbers between 0 and 1) for:\n\n1. COHERENCE (0-1): How well do the sentences flow together? Are ideas connected logically?\n2. RELEVANCE (0-1): How relevant is the argument to the debate topic?\n3. EVIDENCE_STRENGTH (0-1): Does the argument use evidence, facts, or logical reasoning? How credible is the support?\n4. FALLACY_PENALTY (0-1): Are there logical fallacies? (0 = no fallacies, higher = more/worse fallacies)\n\nAlso identify:\n- Number of distinct points/sentences in the argument\n- Number of evidence pieces or factual claims used\n- List any logical fallacies detected (e.g., \"Ad Hominem\", \"Straw Man\", \"Appeal to Authority\", etc.)\n\nRespond in this EXACT JSON format:\n\x7b\n    \"coherence\": 0.XX,\n    \"relevance\": 0.XX,\n    \"evidence_strength\": 0.XX,\n    \"fallacy_penalty\": 0.XX,\n    \"sentence_count\": N,\n    \"evidence_count\": N,\n    \"fallacies\": [\"fallacy1\", \"fallacy2\"] or []\n\x7d\n\nProvide only the JSON, no other text."

/-- The fallback response returned by the catch-all `except` branch of
`score_argument` (src/backend/main.py lines 351–365). -/
def score_fallback_response (argument : String) : ScoreResponse :=
  ⟨0.7, 0.7, 0.6, 0.1, 0.72, ⟨sentCount argument, 0, []⟩⟩

/-- The inner fallback dict of `score_argument` substituted when the regex
finds no JSON-looking substring (src/backend/main.py lines 317–326). -/
def score_default_scores (argument : String) : ParsedScores :=
  ⟨some 0.7, some 0.7, some 0.6, some 0.1, some (sentCount argument), some 0, some []⟩

/-- The clamp-and-weigh tail of the scoring try-block (src/backend/main.py
lines 328–350): clamp the four metrics with `dict.get` defaults, combine
them with weights `0.25 / 0.30 / 0.30 / 0.15`, clamp the sum, and build the
response. -/
def score_from_scores (argument : String) (scores : ParsedScores) : ScoreResponse :=
  let coherence := clampQ (scores.coherence.getD 0.7)
  let relevance := clampQ (scores.relevance.getD 0.7)
  let evidence_strength := clampQ (scores.evidence_strength.getD 0.6)
  let fallacy_penalty := clampQ (scores.fallacy_penalty.getD 0.1)
  let argument_strength :=
    clampQ (0.25 * coherence + 0.30 * relevance + 0.30 * evidence_strength
            - 0.15 * fallacy_penalty)
  ⟨coherence, relevance, evidence_strength, fallacy_penalty, argument_strength,
    ⟨scores.sentence_count.getD (sentCount argument),
     scores.evidence_count.getD 0,
     scores.fallacies.getD []⟩⟩

/-- Embedding of the POST /api/score-argument handler `score_argument`
(src/backend/main.py lines 258–365): invoke the LLM on the rubric prompt,
regex-extract a JSON-looking substring, substitute the inner default dict
when no substring exists, clamp and weigh; any exception — an LLM failure
or a failing `json.loads`/coercion — is caught and answered with the fixed
fallback response. -/
def score_argument {E PE : Type} (llm : String → Except E String)
    (parse : String → Except PE ParsedScores) (argument topic : String) : ScoreResponse :=
  match llm (scoring_prompt argument topic) with
  | Except.error _ => score_fallback_response argument
  | Except.ok content =>
    match jsonMatch content with
    | some matched =>
      match parse matched with
      | Except.error _ => score_fallback_response argument
      | Except.ok scores => score_from_scores argument scores
    | none => score_from_scores argument (score_default_scores argument)

/-- Python `int(q)` on a float: truncation toward zero. -/
def pyInt (q : ℚ) : ℤ := if 0 ≤ q then ⌊q⌋ else -⌊-q⌋

/-- Python `format(q, '.0%')` without the percent sign: multiply by 100 and
round to the nearest integer, ties to even (model of float `__format__`). -/
def roundHalfEven (q : ℚ) : ℤ :=
  let f := ⌊q⌋
  let r := q - (f : ℚ)
  if r < 1/2 then f
  else if (1 : ℚ)/2 < r then f + 1
  else if f % 2 = 0 then f else f + 1

/-- Python `f"{q:.0%}"`. -/
def formatPercent (q : ℚ) : String := toString (roundHalfEven (q * 100)) ++ "%"

/-- The `scores` dict of a feedback request: each rubric key may be absent,
in which case the code\x27s `dict.get` defaults apply. -/
structure FeedbackScores where
  coherence : Option ℚ
  relevance : Option ℚ
  evidenceStrength : Option ℚ
  fallacyPenalty : Option ℚ
  argumentStrength : Option ℚ
  deriving DecidableEq

/-- Request body of POST /api/get-feedback. -/
structure FeedbackRequest where
  argument : String
  topic : String
  scores : FeedbackScores
  target_score : ℤ
  deriving DecidableEq

/-- One `{metric, tip}` pair of the fallback feedback. -/
structure Tip where
  metric : String
  tip : String
  deriving DecidableEq

/-- The deterministic fallback body of POST /api/get-feedback. -/
structure FeedbackResponse where
  type : String
  message : String
  tips : List Tip
  deriving DecidableEq

/-- Result of the feedback handler: either the JSON object parsed from the
model output, returned verbatim (kept abstract as the matched substring), or
the deterministic fallback. -/
inductive FeedbackResult where
  | parsed (matched : String)
  | fallback (r : FeedbackResponse)
  deriving DecidableEq

/-- The fallback message of a `FeedbackResult`, when there is one. -/
def FeedbackResult.messageOf : FeedbackResult → Option String
  | .parsed _ => none
  | .fallback r => some r.message

/-- The fallback tips of a `FeedbackResult`, when there are some. -/
def FeedbackResult.tipsOf : FeedbackResult → Option (List Tip)
  | .parsed _ => none
  | .fallback r => some r.tips

/-- Canned coherence tip of the feedback fallback (src/backend/main.py
lines 434–438). -/
def coherence_tip : Tip :=
  ⟨"Coherence", "Connect your ideas more clearly. Use transition words like \x27therefore\x27, \x27however\x27, \x27furthermore\x27 to link sentences."⟩

/-- Canned relevance tip (src/backend/main.py lines 439–443). -/
def relevance_tip : Tip :=
  ⟨"Relevance", "Stay focused on the debate topic. Make sure each point directly addresses the motion."⟩

/-- Canned evidence tip (src/backend/main.py lines 444–448). -/
def evidence_tip : Tip :=
  ⟨"Evidence", "Add specific examples, statistics, or expert citations to strengthen your claims."⟩

/-- Canned logic tip (src/backend/main.py lines 449–453). -/
def logic_tip : Tip :=
  ⟨"Logic", "Avoid emotional appeals and stick to evidence-based reasoning. Check for common fallacies."⟩

/-- Generic tip substituted when no threshold triggers (src/backend/main.py
lines 455–459). -/
def overall_tip : Tip :=
  ⟨"Overall", "Add more depth and specificity to your arguments. Consider addressing potential counterarguments."⟩

/-- The coaching prompt of `get_feedback` (src/backend/main.py lines
385–415), taking the pre-computed `current_score` and `gap` exactly as the
f-string does. -/
def feedback_prompt (argument topic : String) (scores : FeedbackScores)
    (current_score target_score gap : ℤ) : String :=
  "You are an expert debate coach helping someone improve their argumentation skills.\n\nTOPIC: "
    ++ topic ++ "\n\nSTUDENT\x27S ARGUMENT:\n" ++ argument
    ++ "\n\nCURRENT SCORES:\n- Coherence: " ++ formatPercent (scores.coherence.getD 0.7)
    ++ "\n- Relevance: " ++ formatPercent (scores.relevance.getD 0.7)
    ++ "\n- Evidence Strength: " ++ formatPercent (scores.evidenceStrength.getD 0.6)
    ++ "\n- Fallacy Penalty: -" ++ formatPercent (scores.fallacyPenalty.getD 0.1)
    ++ "\n- Overall Score: " ++ toString current_score
    ++ "%\n- Target Score: " ++ toString target_score
    ++ "%\n- Gap to close: " ++ toString gap
    ++ " points\n\nProvide specific, actionable feedback to help them improve. Focus on their weakest areas.\n\nRespond in this EXACT JSON format:\n\x7b\n    \"type\": \"improvement\",\n    \"message\": \"A brief encouraging message about their gap to the target (1 sentence)\",\n    \"tips\": [\n        \x7b\n            \"metric\": \"Name of metric to improve\",\n            \"tip\": \"Specific, actionable advice (2-3 sentences max)\"\n        \x7d\n    ]\n\x7d\n\nProvide 2-3 tips focusing on the metrics with the lowest scores. Be concise and practical."

/-- The fallback message with the gap spliced in (src/backend/main.py
line 463). -/
def feedback_message (gap : ℤ) : String :=
  "You need " ++ toString gap ++ " more points to reach your target. Here\x27s how:"

/-- The rule-based tip selection of the feedback fallback (src/backend/main.py
lines 432–459): four sequential threshold checks appending canned tips, then
the generic tip when none triggered. -/
def feedback_fallback_tips (scores : FeedbackScores) : List Tip :=
  let tips :=
    (if scores.coherence.getD 1 < 0.75 then [coherence_tip] else []) ++
    (if scores.relevance.getD 1 < 0.8 then [relevance_tip] else []) ++
    (if scores.evidenceStrength.getD 1 < 0.7 then [evidence_tip] else []) ++
    (if scores.fallacyPenalty.getD 0 > 0.1 then [logic_tip] else [])
  if tips.isEmpty then [overall_tip] else tips

/-- The whole fallback response of `get_feedback` (src/backend/main.py lines
431–466): type `improvement`, the gap message, and the selected tips capped
at three by `tips[:3]`. -/
def feedback_fallback (scores : FeedbackScores) (gap : ℤ) : FeedbackResponse :=
  ⟨"improvement", feedback_message gap, (feedback_fallback_tips scores).take 3⟩

/-- Embedding of the POST /api/get-feedback handler `get_feedback`
(src/backend/main.py lines 375–466): compute `current_score` by Python `int`
truncation of `argumentStrength * 100`, `gap = target_score − current_score`,
invoke the LLM on the coaching prompt, and return the parsed JSON verbatim
when the brace regex matches and `json.loads` succeeds (`parseOk`); any LLM
exception, a missing match (the raised `ValueError`), or a parse failure is
caught and answered with the deterministic fallback. -/
def get_feedback {E : Type} (llm : String → Except E String)
    (parseOk : String → Bool) (request : FeedbackRequest) : FeedbackResult :=
  let current_score := pyInt ((request.scores.argumentStrength.getD 0.7) * 100)
  let gap := request.target_score - current_score
  match llm (feedback_prompt request.argument request.topic request.scores
              current_score request.target_score gap) with
  | Except.error _ => .fallback (feedback_fallback request.scores gap)
  | Except.ok content =>
    match jsonMatch content with
    | some matched =>
      if parseOk matched then .parsed matched
      else .fallback (feedback_fallback request.scores gap)
    | none => .fallback (feedback_fallback request.scores gap)

section Lemmas

lemma consHead_ne_nil (c : Char) (ls : List (List Char)) : consHead c ls ≠ [] := by
  cases ls <;> simp [consHead]

lemma splitPred_ne_nil (p : Char → Bool) (l : List Char) : splitPred p l ≠ [] := by
  cases l with
  | nil => simp [splitPred]
  | cons a t =>
    by_cases hp : p a
    · simp [splitPred, hp]
    · simp [splitPred, hp, consHead_ne_nil]

lemma splitPred_no_sep (p : Char → Bool) (l : List Char)
    (h : ∀ c ∈ l, p c = false) : splitPred p l = [l] := by
  induction l with
  | nil => rfl
  | cons a t ih =>
    have ha : p a = false := h a (by simp)
    have ht := ih (fun c hc => h c (by simp [hc]))
    simp [splitPred, ha, ht, consHead]

lemma splitPred_append_sep (p : Char → Bool) (sep : Char) (l : List Char)
    (hl : ∀ c ∈ l, p c = false) (hs : p sep = true) :
    splitPred p (l ++ [sep]) = [l, []] := by
  induction l with
  | nil => simp [splitPred, hs]
  | cons a t ih =>
    have ha : p a = false := hl a (by simp)
    have ht := ih (fun c hc => hl c (by simp [hc]))
    simp [splitPred, ha, ht, consHead]

lemma dropWhile_head?_false (p : Char → Bool) (l : List Char) (c : Char)
    (h : (l.dropWhile p).head? = some c) : p c = false := by
  induction l with
  | nil => simp at h
  | cons a t ih =>
    rw [List.dropWhile_cons] at h
    by_cases hp : p a
    · rw [if_pos hp] at h; exact ih h
    · rw [if_neg hp] at h
      simp at h
      rw [← h]
      exact Bool.eq_false_iff.mpr hp

lemma dropWhile_eq_self_of_head? (p : Char → Bool) (l : List Char)
    (h : ∀ c, l.head? = some c → p c = false) : l.dropWhile p = l := by
  cases l with
  | nil => rfl
  | cons a t =>
    rw [List.dropWhile_cons, h a rfl]
    simp

lemma dropWhile_dropWhile (p : Char → Bool) (l : List Char) :
    (l.dropWhile p).dropWhile p = l.dropWhile p :=
  dropWhile_eq_self_of_head? p _ (fun c hc => dropWhile_head?_false p l c hc)

lemma getLast?_dropWhile (p : Char → Bool) (l : List Char)
    (hne : l.dropWhile p ≠ []) : (l.dropWhile p).getLast? = l.getLast? := by
  induction l with
  | nil => simp at hne
  | cons a t ih =>
    rw [List.dropWhile_cons] at hne ⊢
    by_cases hp : p a
    · rw [if_pos hp] at hne ⊢
      have ht : t ≠ [] := by
        intro h
        subst h
        simp [List.dropWhile] at hne
      obtain ⟨b, t2, rfl⟩ := List.exists_cons_of_ne_nil ht
      rw [ih hne, List.getLast?_cons_cons]
    · rw [if_neg hp]

lemma stripL_idem (l : List Char) : stripL (stripL l) = stripL l := by
  unfold stripL
  have h1 : (((l.dropWhile isSpace).reverse.dropWhile isSpace).reverse).dropWhile isSpace =
      ((l.dropWhile isSpace).reverse.dropWhile isSpace).reverse := by
    apply dropWhile_eq_self_of_head?
    intro c hc
    rw [List.head?_reverse] at hc
    have hbne : (l.dropWhile isSpace).reverse.dropWhile isSpace ≠ [] := by
      intro h
      rw [h] at hc
      simp at hc
    rw [getLast?_dropWhile isSpace _ hbne, List.getLast?_reverse] at hc
    exact dropWhile_head?_false isSpace l c hc
  rw [h1, List.reverse_reverse, dropWhile_dropWhile]

lemma mem_stripL {c : Char} {l : List Char} (h : c ∈ stripL l) : c ∈ l := by
  unfold stripL at h
  rw [List.mem_reverse] at h
  have h2 : c ∈ (l.dropWhile isSpace).reverse := (List.dropWhile_sublist _).subset h
  rw [List.mem_reverse] at h2
  exact (List.dropWhile_sublist _).subset h2

lemma get_summary_eq (content : String) (first : List Char) (rest : List (List Char))
    (h : splitPred (fun c => c == '.') content.data = first :: rest) :
    get_summary content 25 =
      (if (pyWords (stripL first)).length > 25 then
        String.mk (joinWords ((pyWords (stripL first)).take 25) ++ dots3)
      else String.mk (stripL first ++ ['.'])) := by
  unfold get_summary
  rw [h]

lemma clampQ_nonneg (q : ℚ) : 0 ≤ clampQ q := le_max_left 0 _

lemma clampQ_le_one (q : ℚ) : clampQ q ≤ 1 := max_le zero_le_one (min_le_left 1 q)

lemma mem_enumFrom_fst {α : Type} {n : Nat} {l : List α} {x : Nat × α}
    (h : x ∈ List.enumFrom n l) : n ≤ x.1 := by
  obtain ⟨i, a⟩ := x
  exact (List.mem_enumFrom h).1

lemma pairwise_fst_lt_enumFrom {α : Type} (n : Nat) (l : List α) :
    List.Pairwise (fun a b => a.1 < b.1) (List.enumFrom n l) := by
  induction l generalizing n with
  | nil => simp
  | cons a t ih =>
    rw [List.enumFrom_cons]
    refine List.Pairwise.cons ?_ (ih (n + 1))
    intro x hx
    have := mem_enumFrom_fst hx
    omega

lemma pairwise_fst_lt_enum {α : Type} (l : List α) :
    List.Pairwise (fun a b => a.1 < b.1) l.enum :=
  pairwise_fst_lt_enumFrom 0 l

lemma ite_isEmpty_ne_nil {α : Type} (l f : List α) (hf : f ≠ []) :
    (if l.isEmpty then f else l) ≠ [] := by
  cases hE : l.isEmpty with
  | true => simpa [hE] using hf
  | false =>
    simp only [hE, Bool.false_eq_true, if_false]
    intro h
    rw [h] at hE
    simp at hE

lemma counterPoints_ne_nil (content : String) : counterPoints content ≠ [] := by
  unfold counterPoints
  exact ite_isEmpty_ne_nil _ _ (by simp)

lemma counterPoints_pairwise (content : String) :
    List.Pairwise (fun a b => a < b) ((counterPoints content).map Point.id) := by
  unfold counterPoints
  dsimp only
  cases hE : ((splitNN (stripL content.data)).enum.filterMap
      (fun ip => if (stripL ip.2).isEmpty then none
                 else some (⟨ip.1 + 1, String.mk (stripL ip.2)⟩ : Point))).isEmpty with
  | true => simp
  | false =>
    simp only [Bool.false_eq_true, if_false]
    rw [List.map_filterMap, List.pairwise_filterMap]
    refine (pairwise_fst_lt_enum _).imp ?_
    intro a b hab x hx y hy
    by_cases ha : (stripL a.2).isEmpty
    · simp [ha] at hx
    · by_cases hb : (stripL b.2).isEmpty
      · simp [hb] at hy
      · simp [ha, hb] at hx hy
        omega

end Lemmas

/-- C7: get_summary is idempotent on already-summarized text: for every
single-sentence string s (no period character) of at most 25 words,
summarizing its summary returns the same result,
get_summary (get_summary s) = get_summary s, the common value being the
(stripped) sentence with a trailing period. -/
theorem C7_get_summary_idempotent (s : String)
    (hdot : ∀ c ∈ s.data, (c == '.') = false)
    (hwc : (pyWords (stripL s.data)).length ≤ 25) :
    get_summary (get_summary s 25) 25 = get_summary s 25 ∧
    get_summary s 25 = String.mk (stripL s.data ++ ['.']) := by
  have h1 : splitPred (fun c => c == '.') s.data = [s.data] :=
    splitPred_no_sep _ _ hdot
  have hfirst : get_summary s 25 = String.mk (stripL s.data ++ ['.']) := by
    rw [get_summary_eq s s.data [] h1, if_neg (by omega)]
  refine ⟨?_, hfirst⟩
  rw [hfirst]
  have hdot2 : ∀ c ∈ stripL s.data, ((c == '.') : Bool) = false :=
    fun c hc => hdot c (mem_stripL hc)
  have h2 : splitPred (fun c => c == '.') (String.mk (stripL s.data ++ ['.'])).data
      = [stripL s.data, []] :=
    splitPred_append_sep _ '.' _ hdot2 (by decide)
  rw [get_summary_eq _ (stripL s.data) [[]] h2, stripL_idem]
  rw [if_neg (by omega)]

/-- Witness for C7 at the concrete single-sentence input "Hello world". -/
theorem C7_witness :
    (∀ c ∈ ("Hello world" : String).data, (c == '.') = false) ∧
    (pyWords (stripL ("Hello world" : String).data)).length ≤ 25 ∧
    (get_summary (get_summary "Hello world" 25) 25 = get_summary "Hello world" 25 ∧
     get_summary "Hello world" 25 = String.mk (stripL ("Hello world" : String).data ++ ['.'])) :=
  ⟨by decide, by decide, C7_get_summary_idempotent "Hello world" (by decide) (by decide)⟩

/-- C10: get_summary is total and its 150-character fallback branch is
unreachable: splitting on the period character always yields a non-empty
list, so the result is always either the first 25 words followed by an
ellipsis or the (possibly empty) stripped first sentence followed by a
period; in particular get_summary of the empty string is ".". -/
theorem C10_get_summary_total (content : String) :
    splitPred (fun c => c == '.') content.data ≠ [] ∧
    (get_summary content 25 =
        String.mk (joinWords ((pyWords (stripL
          ((splitPred (fun c => c == '.') content.data).headD []))).take 25) ++ dots3) ∨
      get_summary content 25 =
        String.mk (stripL ((splitPred (fun c => c == '.') content.data).headD []) ++ ['.'])) ∧
    get_summary "" 25 = "." := by
  refine ⟨splitPred_ne_nil _ _, ?_, by decide⟩
  cases h : splitPred (fun c => c == '.') content.data with
  | nil => exact absurd h (splitPred_ne_nil _ _)
  | cons f r =>
    rw [get_summary_eq content f r h]
    simp only [List.headD_cons]
    by_cases hlen : (pyWords (stripL f)).length > 25
    · left
      rw [if_pos hlen]
    · right
      rw [if_neg hlen]

/-- C6: every round value other than "opening" and "rebuttal" takes the
closing branch of the stage dispatch, so the live-counter response is the
same as for round = "closing". -/
theorem C6_unknown_round_closing {E : Type} (llm : String → Except E String)
    (req : LiveDebateRequest) (h1 : req.round ≠ "opening") (h2 : req.round ≠ "rebuttal") :
    generate_counter llm req = generate_counter llm { req with round := "closing" } := by
  have e1 : (req.round == "opening") = false := beq_eq_false_iff_ne.mpr h1
  have e2 : (req.round == "rebuttal") = false := beq_eq_false_iff_ne.mpr h2
  simp [generate_counter, counterPrompt, e1, e2]

/-- Witness for C6 at the concrete unknown round value "banana". -/
theorem C6_witness :
    ("banana" : String) ≠ "opening" ∧ ("banana" : String) ≠ "rebuttal" ∧
    generate_counter (fun _ => (Except.ok "x" : Except Unit String))
        ⟨"t", "u", "banana", []⟩ =
      generate_counter (fun _ => (Except.ok "x" : Except Unit String))
        ⟨"t", "u", "closing", []⟩ :=
  ⟨by decide, by decide,
    C6_unknown_round_closing (fun _ => (Except.ok "x" : Except Unit String))
      ⟨"t", "u", "banana", []⟩ (by decide) (by decide)⟩

/-- C2 counterexample: the full-debate pipeline issues six LLM generation
calls, not the four the claim states — at a concrete topic and LLM stub the
prompt trace has length 6 ≠ 4. -/
theorem C2_counterexample :
    Except.map (fun r => r.2.length)
      ((run_debate (fun p => (Except.ok p : Except Unit String)) "cats").run []) =
      Except.ok 6 ∧ (6 : Nat) ≠ 4 :=
  ⟨by rfl, by decide⟩

/-- C2 amended: POST /api/debate produces its six argument texts via exactly
six sequential LLM generation calls (not four): proposition opening,
opposition opening, each side\x27s rebuttal prompt embedding the opposite
side\x27s opening as history, and each side\x27s closing prompt embedding
that side\x27s own opening concatenated with the opponent\x27s rebuttal as
history; the returned rebuttal text is the LLM answer to the corresponding
prompt. -/
theorem C2_amended (f : String → String) (topic : String) :
    Except.map Prod.snd
      ((run_debate (fun p => (Except.ok (f p) : Except Unit String)) topic).run []) =
      Except.ok
        [argPrompt topic "Proposition" "opening" "",
         argPrompt topic "Opposition" "opening" "",
         argPrompt topic "Proposition" "rebuttal" (f (argPrompt topic "Opposition" "opening" "")),
         argPrompt topic "Opposition" "rebuttal" (f (argPrompt topic "Proposition" "opening" "")),
         argPrompt topic "Proposition" "closing"
           ("Your Opening: " ++ f (argPrompt topic "Proposition" "opening" "") ++
            "\nOpponent\x27s Rebuttal: " ++
            f (argPrompt topic "Opposition" "rebuttal"
                (f (argPrompt topic "Proposition" "opening" "")))),
         argPrompt topic "Opposition" "closing"
           ("Your Opening: " ++ f (argPrompt topic "Opposition" "opening" "") ++
            "\nOpponent\x27s Rebuttal: " ++
            f (argPrompt topic "Proposition" "rebuttal"
                (f (argPrompt topic "Opposition" "opening" ""))))] ∧
    Except.map (fun r => r.1.proposition.rebuttal.full)
      ((run_debate (fun p => (Except.ok (f p) : Except Unit String)) topic).run []) =
      Except.ok (f (argPrompt topic "Proposition" "rebuttal"
        (f (argPrompt topic "Opposition" "opening" "")))) ∧
    Except.map (fun r => r.1.opposition.closing.full)
      ((run_debate (fun p => (Except.ok (f p) : Except Unit String)) topic).run []) =
      Except.ok (f (argPrompt topic "Opposition" "closing"
        ("Your Opening: " ++ f (argPrompt topic "Opposition" "opening" "") ++
         "\nOpponent\x27s Rebuttal: " ++
         f (argPrompt topic "Proposition" "rebuttal"
             (f (argPrompt topic "Opposition" "opening" "")))))) :=
  ⟨rfl, rfl, rfl⟩

/-- C3 counterexample: for the LLM output "a\n\n\n\nb" (two paragraphs
separated by two blank-line separators) the live-counter points carry ids
1 and 3, not the sequential ids 1 and 2 the claim states. -/
theorem C3_counterexample :
    Except.map (fun r => r.points.map Point.id)
      (generate_counter (fun _ => (Except.ok "a\n\n\n\nb" : Except Unit String))
        ⟨"t", "u", "opening", []⟩) = Except.ok [1, 3] ∧
    ([1, 3] : List Nat) ≠ [1, 2] :=
  ⟨by rfl, by decide⟩

/-- C3 amended: the live-counter output text is split on blank-line
boundaries, each non-blank paragraph becomes a point whose id is its
1-based position in the split (blank segments are skipped but still advance
the id, so ids are strictly increasing but not necessarily consecutive);
when no non-blank paragraph is found the entire stripped text becomes a
single point with id 1; two paragraphs separated by a single blank line
yield exactly the ids 1 and 2, and a text with no blank line yields one
point with id 1. -/
theorem C3_amended (content : String) (req : LiveDebateRequest) :
    generate_counter (fun _ => (Except.ok content : Except Unit String)) req =
      Except.ok ⟨content, counterPoints content⟩ ∧
    counterPoints content =
      (let pts := (splitNN (stripL content.data)).enum.filterMap
          (fun ip => if (stripL ip.2).isEmpty then none
                     else some ⟨ip.1 + 1, String.mk (stripL ip.2)⟩)
       if pts.isEmpty then [⟨1, pyStrip content⟩] else pts) ∧
    List.Pairwise (fun a b => a < b) ((counterPoints content).map Point.id) ∧
    counterPoints content ≠ [] ∧
    (counterPoints "First.\n\nSecond.").map Point.id = [1, 2] ∧
    counterPoints "abc" = [⟨1, "abc"⟩] :=
  ⟨rfl, rfl, counterPoints_pairwise content, counterPoints_ne_nil content,
    by decide, by decide⟩

/-- C1 counterexample: for an LLM output with no brace-delimited substring
the scoring endpoint does not return argumentStrength 0.72 — the weighted
formula applied to the substituted default metrics gives 0.55. -/
theorem C1_counterexample :
    jsonMatch "no json here" = none ∧
    (score_argument (fun _ => (Except.ok "no json here" : Except Unit String))
        (fun _ => (Except.error () : Except Unit ParsedScores)) "hi" "t").argumentStrength
      ≠ (0.72 : ℚ) := by
  have h : jsonMatch "no json here" = none := by decide
  refine ⟨h, ?_⟩
  simp [score_argument, h, score_from_scores, score_default_scores, clampQ]
  norm_num

/-- C1 amended: for every scoring request and every LLM output string
containing no brace-delimited JSON substring, POST /api/score-argument
succeeds and returns the fallback scores coherence 0.7, relevance 0.7,
evidenceStrength 0.6, fallacyPenalty 0.1, and argumentStrength 0.55 (the
weighted formula applied to the fallback metrics); the 0.72 value belongs
only to the exception fallback. -/
theorem C1_amended {E PE : Type} (argument topic content : String)
    (parse : String → Except PE ParsedScores) (h : jsonMatch content = none) :
    score_argument (fun _ => (Except.ok content : Except E String)) parse argument topic =
      ⟨0.7, 0.7, 0.6, 0.1, 0.55, ⟨sentCount argument, 0, []⟩⟩ := by
  simp only [score_argument, h]
  unfold score_from_scores score_default_scores
  simp only [Option.getD_some]
  have c7 : clampQ 0.7 = 0.7 := by unfold clampQ; rw [min_eq_right (by norm_num), max_eq_right (by norm_num)]
  have c6 : clampQ 0.6 = 0.6 := by unfold clampQ; rw [min_eq_right (by norm_num), max_eq_right (by norm_num)]
  have c1 : clampQ 0.1 = 0.1 := by unfold clampQ; rw [min_eq_right (by norm_num), max_eq_right (by norm_num)]
  rw [c7, c6, c1]
  have cs : clampQ (0.25 * 0.7 + 0.30 * 0.7 + 0.30 * 0.6 - 0.15 * 0.1) = 0.55 := by
    unfold clampQ
    rw [show (0.25 * 0.7 + 0.30 * 0.7 + 0.30 * 0.6 - 0.15 * 0.1 : ℚ) = 0.55 by norm_num]
    rw [min_eq_right (by norm_num), max_eq_right (by norm_num)]
  rw [cs]

/-- Witness for C1 amended at the concrete JSON-free output "plain prose". -/
theorem C1_witness :
    jsonMatch "plain prose" = none ∧
    score_argument (fun _ => (Except.ok "plain prose" : Except Unit String))
        (fun _ => (Except.error () : Except Unit ParsedScores)) "hi" "t" =
      ⟨0.7, 0.7, 0.6, 0.1, 0.55, ⟨sentCount "hi", 0, []⟩⟩ :=
  ⟨by decide,
    C1_amended "hi" "t" "plain prose" (fun _ => (Except.error () : Except Unit ParsedScores))
      (by decide)⟩

/-- C5: whenever the extracted JSON parses, each of the four metrics
returned by POST /api/score-argument lies in [0,1] regardless of the parsed
values, and argumentStrength equals the weighted sum
0.25·coherence + 0.30·relevance + 0.30·evidenceStrength − 0.15·fallacyPenalty
clamped to [0,1]. -/
theorem C5_scores_clamped (argument topic content matched : String) (p : ParsedScores)
    (h : jsonMatch content = some matched) :
    (0 ≤ (score_argument (fun _ => (Except.ok content : Except Unit String))
        (fun _ => (Except.ok p : Except Unit ParsedScores)) argument topic).coherence ∧
      (score_argument (fun _ => (Except.ok content : Except Unit String))
        (fun _ => (Except.ok p : Except Unit ParsedScores)) argument topic).coherence ≤ 1) ∧
    (0 ≤ (score_argument (fun _ => (Except.ok content : Except Unit String))
        (fun _ => (Except.ok p : Except Unit ParsedScores)) argument topic).relevance ∧
      (score_argument (fun _ => (Except.ok content : Except Unit String))
        (fun _ => (Except.ok p : Except Unit ParsedScores)) argument topic).relevance ≤ 1) ∧
    (0 ≤ (score_argument (fun _ => (Except.ok content : Except Unit String))
        (fun _ => (Except.ok p : Except Unit ParsedScores)) argument topic).evidenceStrength ∧
      (score_argument (fun _ => (Except.ok content : Except Unit String))
        (fun _ => (Except.ok p : Except Unit ParsedScores)) argument topic).evidenceStrength ≤ 1) ∧
    (0 ≤ (score_argument (fun _ => (Except.ok content : Except Unit String))
        (fun _ => (Except.ok p : Except Unit ParsedScores)) argument topic).fallacyPenalty ∧
      (score_argument (fun _ => (Except.ok content : Except Unit String))
        (fun _ => (Except.ok p : Except Unit ParsedScores)) argument topic).fallacyPenalty ≤ 1) ∧
    (0 ≤ (score_argument (fun _ => (Except.ok content : Except Unit String))
        (fun _ => (Except.ok p : Except Unit ParsedScores)) argument topic).argumentStrength ∧
      (score_argument (fun _ => (Except.ok content : Except Unit String))
        (fun _ => (Except.ok p : Except Unit ParsedScores)) argument topic).argumentStrength ≤ 1) ∧
    (score_argument (fun _ => (Except.ok content : Except Unit String))
        (fun _ => (Except.ok p : Except Unit ParsedScores)) argument topic).argumentStrength =
      clampQ (0.25 * (score_argument (fun _ => (Except.ok content : Except Unit String))
          (fun _ => (Except.ok p : Except Unit ParsedScores)) argument topic).coherence +
        0.30 * (score_argument (fun _ => (Except.ok content : Except Unit String))
          (fun _ => (Except.ok p : Except Unit ParsedScores)) argument topic).relevance +
        0.30 * (score_argument (fun _ => (Except.ok content : Except Unit String))
          (fun _ => (Except.ok p : Except Unit ParsedScores)) argument topic).evidenceStrength -
        0.15 * (score_argument (fun _ => (Except.ok content : Except Unit String))
          (fun _ => (Except.ok p : Except Unit ParsedScores)) argument topic).fallacyPenalty) := by
  simp only [score_argument, h]
  unfold score_from_scores
  exact ⟨⟨clampQ_nonneg _, clampQ_le_one _⟩, ⟨clampQ_nonneg _, clampQ_le_one _⟩,
    ⟨clampQ_nonneg _, clampQ_le_one _⟩, ⟨clampQ_nonneg _, clampQ_le_one _⟩,
    ⟨clampQ_nonneg _, clampQ_le_one _⟩, rfl⟩

/-- Witness for C5 at the concrete matched output "\x7b\x7d" and parsed
values lying outside [0,1], which the clamp pulls back in. -/
theorem C5_witness :
    jsonMatch "{}" = some "{}" ∧
    (0 ≤ (score_argument (fun _ => (Except.ok "{}" : Except Unit String))
        (fun _ => (Except.ok (⟨some 2, some (-1), none, some (1/2), none, none, none⟩ : ParsedScores) :
          Except Unit ParsedScores)) "a" "t").coherence ∧
      (score_argument (fun _ => (Except.ok "{}" : Except Unit String))
        (fun _ => (Except.ok (⟨some 2, some (-1), none, some (1/2), none, none, none⟩ : ParsedScores) :
          Except Unit ParsedScores)) "a" "t").coherence ≤ 1) ∧
    (score_argument (fun _ => (Except.ok "{}" : Except Unit String))
        (fun _ => (Except.ok (⟨some 2, some (-1), none, some (1/2), none, none, none⟩ : ParsedScores) :
          Except Unit ParsedScores)) "a" "t").argumentStrength =
      clampQ (0.25 * (score_argument (fun _ => (Except.ok "{}" : Except Unit String))
          (fun _ => (Except.ok (⟨some 2, some (-1), none, some (1/2), none, none, none⟩ : ParsedScores) :
            Except Unit ParsedScores)) "a" "t").coherence +
        0.30 * (score_argument (fun _ => (Except.ok "{}" : Except Unit String))
          (fun _ => (Except.ok (⟨some 2, some (-1), none, some (1/2), none, none, none⟩ : ParsedScores) :
            Except Unit ParsedScores)) "a" "t").relevance +
        0.30 * (score_argument (fun _ => (Except.ok "{}" : Except Unit String))
          (fun _ => (Except.ok (⟨some 2, some (-1), none, some (1/2), none, none, none⟩ : ParsedScores) :
            Except Unit ParsedScores)) "a" "t").evidenceStrength -
        0.15 * (score_argument (fun _ => (Except.ok "{}" : Except Unit String))
          (fun _ => (Except.ok (⟨some 2, some (-1), none, some (1/2), none, none, none⟩ : ParsedScores) :
            Except Unit ParsedScores)) "a" "t").fallacyPenalty) := by
  have hm : jsonMatch "{}" = some "{}" := by decide
  have hall := C5_scores_clamped "a" "t" "{}" "{}"
    (⟨some 2, some (-1), none, some (1/2), none, none, none⟩ : ParsedScores) hm
  exact ⟨hm, hall.1, hall.2.2.2.2.2⟩

/-- C4 counterexample: for argumentStrength 999/1000 and target 90 the
fallback message carries gap −9 (Python int truncation of 99.9), while
target − round(strength·100) would be −10, so the gap is not computed by
rounding to the nearest integer. -/
theorem C4_counterexample :
    FeedbackResult.messageOf
        (get_feedback (fun _ => (Except.error () : Except Unit String)) (fun _ => true)
          ⟨"a", "t", ⟨some 0.5, some 0.5, some 0.5, some 0.3, some (999/1000)⟩, 90⟩) =
      some (feedback_message (-9)) ∧
    (90 : ℤ) - round ((999/1000 : ℚ) * 100) = -10 ∧
    feedback_message (-9) ≠ feedback_message (-10) := by
  refine ⟨?_, ?_, by decide⟩
  · have hp : pyInt ((999/1000 : ℚ) * 100) = 99 := by norm_num [pyInt]
    show some (feedback_message ((90 : ℤ) -
        pyInt ((some (999/1000 : ℚ)).getD 0.7 * 100))) = some (feedback_message (-9))
    rw [Option.getD_some, hp]
    decide
  · rw [round_eq]
    norm_num

set_option maxHeartbeats 1600000 in
/-- C4 amended: the gap embedded in the coaching prompt and in the fallback
message equals target_score − int(argumentStrength·100) where int is Python
truncation toward zero (floor for the non-negative strengths), not rounding
to the nearest integer; in particular for argumentStrength 0.5 and
target_score 90 the gap is 40. -/
theorem C4_amended {E : Type} (e : E) (llm : String → Except E String)
    (parseOk : String → Bool) (req : FeedbackRequest) :
    get_feedback llm parseOk req =
      get_feedback (fun _ => llm (feedback_prompt req.argument req.topic req.scores
          (pyInt ((req.scores.argumentStrength.getD 0.7) * 100)) req.target_score
          (req.target_score - pyInt ((req.scores.argumentStrength.getD 0.7) * 100))))
        parseOk req ∧
    FeedbackResult.messageOf
        (get_feedback (fun _ => (Except.error e : Except E String)) parseOk req) =
      some (feedback_message
        (req.target_score - pyInt ((req.scores.argumentStrength.getD 0.7) * 100))) ∧
    FeedbackResult.messageOf
        (get_feedback (fun _ => (Except.error () : Except Unit String)) (fun _ => true)
          ⟨"a", "t", ⟨some 0.5, some 0.5, some 0.5, some 0.3, some 0.5⟩, 90⟩) =
      some "You need 40 more points to reach your target. Here\x27s how:" := by
  refine ⟨rfl, rfl, ?_⟩
  have hp : pyInt ((0.5 : ℚ) * 100) = 50 := by norm_num [pyInt]
  show some (feedback_message ((90 : ℤ) -
      pyInt ((some (0.5 : ℚ)).getD 0.7 * 100))) = _
  rw [Option.getD_some, hp]
  decide

set_option maxHeartbeats 1600000 in
/-- Helper: when the matched JSON fails to parse (or no match exists), the
feedback handler answers with the deterministic fallback. -/
lemma get_feedback_parse_failed (content : String) (freq : FeedbackRequest) :
    get_feedback (fun _ => (Except.ok content : Except Unit String)) (fun _ => false) freq =
      FeedbackResult.fallback (feedback_fallback freq.scores
        (freq.target_score - pyInt ((freq.scores.argumentStrength.getD 0.7) * 100))) := by
  unfold get_feedback
  cases hj : jsonMatch content <;> simp [hj]

/-- C8: whenever the feedback LLM call fails or the JSON parse fails, POST
/api/get-feedback returns a deterministic fallback whose tips are selected
exactly by the thresholds coherence < 0.75, relevance < 0.8,
evidenceStrength < 0.7 and fallacyPenalty > 0.1 in that fixed order, capped
at 3 tips, with one generic tip substituted when no threshold triggers. -/
theorem C8_fallback_tips {E : Type} (e : E) (req : FeedbackRequest)
    (parseOk : String → Bool) (content : String) :
    let sel := (if req.scores.coherence.getD 1 < 0.75 then [coherence_tip] else []) ++
               (if req.scores.relevance.getD 1 < 0.8 then [relevance_tip] else []) ++
               (if req.scores.evidenceStrength.getD 1 < 0.7 then [evidence_tip] else []) ++
               (if req.scores.fallacyPenalty.getD 0 > 0.1 then [logic_tip] else [])
    let tips := (if sel.isEmpty then [overall_tip] else sel).take 3
    (get_feedback (fun _ => (Except.error e : Except E String)) parseOk req).tipsOf =
        some tips ∧
    (get_feedback (fun _ => (Except.ok content : Except Unit String)) (fun _ => false)
        req).tipsOf = some tips ∧
    tips.length ≤ 3 ∧ tips ≠ [] := by
  intro sel tips
  refine ⟨rfl, ?_, ?_, ?_⟩
  · rw [get_feedback_parse_failed]
    rfl
  · show ((if sel.isEmpty then [overall_tip] else sel).take 3).length ≤ 3
    rw [List.length_take]
    exact min_le_left _ _
  · show (if sel.isEmpty then [overall_tip] else sel).take 3 ≠ []
    cases hE : sel.isEmpty with
    | true => simp
    | false =>
      simp only [Bool.false_eq_true, if_false]
      intro h
      rw [List.take_eq_nil_iff] at h
      rcases h with h | h
      · exact absurd h (by decide)
      · rw [h] at hE
        simp at hE

/-- C9: an LLM exception propagates uncaught out of the /api/debate and
/api/live-counter handlers, while the /api/score-argument and
/api/get-feedback handlers catch LLM and parse failures and answer with
their deterministic fallback payloads. -/
theorem C9_exception_paths {E : Type} (e : E) (topic argument atopic content c : String)
    (matched : String) (creq : LiveDebateRequest) (freq : FeedbackRequest)
    (parse : String → Except Unit ParsedScores) (parseOk : String → Bool)
    (h : jsonMatch content = some matched) :
    (run_debate (fun _ => (Except.error e : Except E String)) topic).run [] =
      Except.error e ∧
    generate_counter (fun _ => (Except.error e : Except E String)) creq =
      Except.error e ∧
    score_argument (fun _ => (Except.error e : Except E String)) parse argument atopic =
      score_fallback_response argument ∧
    score_argument (fun _ => (Except.ok content : Except Unit String))
        (fun _ => (Except.error () : Except Unit ParsedScores)) argument atopic =
      score_fallback_response argument ∧
    get_feedback (fun _ => (Except.error e : Except E String)) parseOk freq =
      FeedbackResult.fallback (feedback_fallback freq.scores
        (freq.target_score - pyInt ((freq.scores.argumentStrength.getD 0.7) * 100))) ∧
    get_feedback (fun _ => (Except.ok c : Except Unit String)) (fun _ => false) freq =
      FeedbackResult.fallback (feedback_fallback freq.scores
        (freq.target_score - pyInt ((freq.scores.argumentStrength.getD 0.7) * 100))) := by
  refine ⟨rfl, rfl, rfl, ?_, rfl, get_feedback_parse_failed c freq⟩
  simp only [score_argument, h]

/-- Concrete live-counter request used by the C9 witness. -/
def creq0 : LiveDebateRequest := ⟨"t", "u", "opening", []⟩

/-- Concrete feedback request used by the C9 witness. -/
def freq0 : FeedbackRequest := ⟨"a", "t", ⟨none, none, none, none, none⟩, 50⟩

/-- Witness for C9 at concrete inputs, with "\x7b\x7d" as the output whose
extracted JSON fails to parse. -/
theorem C9_witness :
    jsonMatch "{}" = some "{}" ∧
    ((run_debate (fun _ => (Except.error () : Except Unit String)) "t").run [] =
        Except.error () ∧
      generate_counter (fun _ => (Except.error () : Except Unit String)) creq0 =
        Except.error () ∧
      score_argument (fun _ => (Except.error () : Except Unit String))
          (fun _ => (Except.error () : Except Unit ParsedScores)) "a" "b" =
        score_fallback_response "a" ∧
      score_argument (fun _ => (Except.ok "{}" : Except Unit String))
          (fun _ => (Except.error () : Except Unit ParsedScores)) "a" "b" =
        score_fallback_response "a" ∧
      get_feedback (fun _ => (Except.error () : Except Unit String)) (fun _ => true) freq0 =
        FeedbackResult.fallback (feedback_fallback freq0.scores
          (freq0.target_score - pyInt ((freq0.scores.argumentStrength.getD 0.7) * 100))) ∧
      get_feedback (fun _ => (Except.ok "zz" : Except Unit String)) (fun _ => false) freq0 =
        FeedbackResult.fallback (feedback_fallback freq0.scores
          (freq0.target_score - pyInt ((freq0.scores.argumentStrength.getD 0.7) * 100)))) :=
  ⟨by decide,
    C9_exception_paths () "t" "a" "b" "{}" "zz" "{}" creq0 freq0
      (fun _ => (Except.error () : Except Unit ParsedScores)) (fun _ => true) (by decide)⟩

end DebateBot
